import Mathlib

/-!
A shallow embedding of the SlackTime client library envelope machinery
(`slack_time/api.py`, `slack_time/utils.py`, `slack_time/__init__.py`) and of
two representative endpoint grouping methods (`Auth.revoke`,
`ScheduledMessages.list`), together with theorems checking the natural-language
specification of the repository against it.

Modelling conventions:
* Python dicts used as payloads are ordered association lists.
* Keyword-argument dicts (`**kwargs`) are structures whose fields are
  `Option`s; `none` means the key is absent, so `dict.setdefault` becomes a
  `match` on the `Option`.
* The HTTP transport (`requests.request` / a `requests.Session`) is a
  parameter of type `Transport`: a function from the fully assembled request
  to the decoded JSON body.  A decoded body is modelled by the fields the
  client reads: the `ok` flag and the optional `error` code.
* Raised Python exceptions become `Except` values: `PyError.slackError`
  models a dynamically created exception class deriving from `SlackError`,
  and `PyError.typeError` models a `TypeError` raised by the `type` builtin.
-/

namespace SlackTime

/-- `SLACK_API_BASE_URL` from `slack_time/api.py`. -/
def SLACK_API_BASE_URL : String := "https://slack.com/api"

/-- `SLACK_DOC_BASE_URL` from `slack_time/api.py`. -/
def SLACK_DOC_BASE_URL : String := "https://api.slack.com/methods/"

/-- A single-quote character, used in the formatted error message. -/
def squote : String := String.singleton (Char.ofNat 39)

/-- A JSON-encodable payload value (the parameter types the endpoint methods
accept: strings, integers, booleans). -/
inductive Value where
  | str (s : String)
  | int (n : Int)
  | bool (b : Bool)
deriving Repr, DecidableEq

/-- A request payload: an ordered mapping from parameter name to value,
modelling the Python `payload` dict. -/
abbrev Payload := List (String × Value)

/-- A proxy configuration mapping scheme to proxy address. -/
abbrev Proxies := List (String × String)

/-- The decoded JSON response body, restricted to the fields the client
reads: `body["ok"]` and `body.get("error")`. -/
structure Body where
  ok : Bool
  error : Option String := none
deriving Repr, DecidableEq

/-- The fully assembled HTTP request handed to the transport by
`client.request(method, url, **kwargs)` in `SlackAPI._request`. -/
structure SentRequest where
  method : String
  url : String
  timeout : Int
  proxies : Option Proxies
  params : Option Payload
  data : Option Payload
deriving Repr, DecidableEq

/-- The HTTP transport: takes the assembled request and returns the decoded
JSON body.  Stands for the `requests` module or a `requests.Session`. -/
abbrev Transport := SentRequest → Body

/-- The configuration stored by `SlackAPI.__init__`. -/
structure SlackAPI where
  token : String
  session : Option Transport := none
  proxies : Option Proxies := none
  timeout : Int := 10

/-- The `**kwargs` dict flowing through `_get`/`_post`/`_request`; a field is
`none` when the corresponding key is absent.  The `payload` keyword of
`_post`/`_get` travels through `**kwargs` as well, because the signature of the
decorator wrapper is `wrapper(instance, path, **kwargs)`. -/
structure Kwargs where
  timeout : Option Int := none
  proxies : Option Proxies := none
  params : Option Payload := none
  data : Option Payload := none
  payload : Option Payload := none

/-- The decorated `requests.Response` returned by `SlackAPI._request`: the
request that was sent, the decoded body, and the two derived fields
`resp.successful = resp.body["ok"]` and `resp.error = resp.body.get("error")`. -/
structure Resp where
  request : SentRequest
  body : Body
  successful : Bool
  error : Option String
deriving Repr, DecidableEq

/-- A raised Python exception: either a dynamically created subclass of
`SlackError` (carrying its class name and message), or a `TypeError`. -/
inductive PyError where
  | slackError (typeName : String) (message : String)
  | typeError (message : String)
deriving Repr, DecidableEq

/-- Whether a raised exception is an instance of a (dynamically created)
subtype of the base `SlackError` kind. -/
def PyError.isSlackErrorSubtype : PyError → Bool
  | .slackError _ _ => true
  | .typeError _ => false

/-- The class attribute `SlackAPI.url = SLACK_API_BASE_URL`. -/
def SlackAPI.url : String := SLACK_API_BASE_URL

/-- `SlackAPI.make_url`: `return self.url + "/" + path`. -/
def SlackAPI.make_url (_api : SlackAPI) (path : String) : String :=
  SlackAPI.url ++ "/" ++ path

/-- `SlackAPI._request`: applies `kwargs.setdefault("timeout", self._timeout)`
and `kwargs.setdefault("proxies", self._proxies)`, picks
`client = self._session if self._session else requests`, issues the request,
and decorates the response with `body`, `successful` and `error`. -/
def SlackAPI._request (api : SlackAPI) (tr : Transport) (method url : String)
    (kw : Kwargs) : Resp :=
  let timeout := match kw.timeout with
    | some t => t
    | none => api.timeout
  let proxies := match kw.proxies with
    | some p => some p
    | none => api.proxies
  let client := match api.session with
    | some s => s
    | none => tr
  let sent : SentRequest :=
    { method := method, url := url, timeout := timeout, proxies := proxies,
      params := kw.params, data := kw.data }
  let body := client sent
  { request := sent, body := body, successful := body.ok, error := body.error }

/-- `url.rsplit("/", maxsplit=1).pop()`: the substring after the last `/`
(the whole string when there is no `/`). -/
def rsplitLast (s : String) : String :=
  (s.splitOn "/").getLastD s

/-- Models the builtin call `type(name, (SlackError,), dict())` that
synthesizes the exception class: a `str` name yields a class with that name;
`None` (the name being absent) makes `type` itself raise a `TypeError`,
because the first argument of the three-argument `type` must be a `str`. -/
def dynamicExceptionClass : Option String → Except PyError String
  | some name => .ok name
  | none => .error (.typeError "type() argument 1 must be str, not NoneType")

/-- The f-string message built in `raise_exception_on_error_from_server`
(`slack_time/api.py` lines 24-27). -/
def errorMessage (url err doc : String) : String :=
  "You tried to perform a request to " ++
    (url ++
      ((". \nThe server returned a " ++ squote) ++
        (err ++
          ((squote ++ " response. Find out more at: ") ++
            (doc ++ "#errors")))))

/-- `raise_exception_on_error_from_server` (`slack_time/api.py` lines 15-31):
wraps a request-issuing function; when `resp.successful` is falsy it builds
the URL and documentation link, synthesizes the exception class from
`resp.error`, and raises it with the formatted message; otherwise it returns
the response unchanged. -/
def raise_exception_on_error_from_server (func : String → Kwargs → Resp)
    (path : String) (kw : Kwargs) : Except PyError Resp :=
  let resp := func path kw
  if !resp.successful then
    let url := SLACK_API_BASE_URL ++ "/" ++ path
    let doc := SLACK_DOC_BASE_URL ++ rsplitLast url
    match dynamicExceptionClass resp.error with
    | .error e => .error e
    | .ok name => .error (.slackError name (errorMessage url name doc))
  else
    .ok resp

/-- The body of `SlackAPI._post` before decoration: builds the URL, applies
`kwargs.setdefault("data", payload)` and dispatches with verb `"post"`. -/
def SlackAPI.post_undecorated (api : SlackAPI) (tr : Transport) (path : String)
    (kw : Kwargs) : Resp :=
  let url := api.make_url path
  let kw := { kw with data := match kw.data with
    | some d => some d
    | none => kw.payload }
  api._request tr "post" url kw

/-- The body of `SlackAPI._get` before decoration: builds the URL, applies
`kwargs.setdefault("params", payload)` and dispatches with verb `"get"`. -/
def SlackAPI.get_undecorated (api : SlackAPI) (tr : Transport) (path : String)
    (kw : Kwargs) : Resp :=
  let url := api.make_url path
  let kw := { kw with params := match kw.params with
    | some p => some p
    | none => kw.payload }
  api._request tr "get" url kw

/-- `SlackAPI._post`: `post_undecorated` decorated with
`raise_exception_on_error_from_server`. -/
def SlackAPI._post (api : SlackAPI) (tr : Transport) (path : String)
    (kw : Kwargs) : Except PyError Resp :=
  raise_exception_on_error_from_server (api.post_undecorated tr) path kw

/-- `SlackAPI._get`: `get_undecorated` decorated with
`raise_exception_on_error_from_server`. -/
def SlackAPI._get (api : SlackAPI) (tr : Transport) (path : String)
    (kw : Kwargs) : Except PyError Resp :=
  raise_exception_on_error_from_server (api.get_undecorated tr) path kw

/-- The argument type of `comma_separated_string` in `slack_time/utils.py`:
either a `str` or a (non-`str`) iterable of strings.  A Python argument that
is neither would hit the `TypeError` branch; such values are outside the
scope of this claim and outside the type. -/
inductive StrOrIter where
  | str (s : String)
  | iter (xs : List String)
deriving Repr, DecidableEq

/-- `comma_separated_string` (`slack_time/utils.py` lines 94-106): a `str` is
returned unchanged; an iterable is joined with `","`. -/
def comma_separated_string : StrOrIter → String
  | .str s => s
  | .iter xs => String.intercalate "," xs

/-- A failed `assert` statement. -/
structure AssertionError where
  message : String
deriving Repr, DecidableEq

/-- Python truthiness of an `Optional[str]`: `None` and the empty string are
falsy. -/
def pyTruthyOptStr : Option String → Bool
  | none => false
  | some s => !s.isEmpty

/-- The `SlackTime` client class only adds cached endpoint-grouping
accessors to `SlackAPI`; its constructor and configuration are those of
`SlackAPI`. -/
abbrev SlackTimeClient := SlackAPI

/-- `get_slack_time` (`slack_time/__init__.py` lines 148-152): reads the
token from the environment (modelled as a function from variable name to
optional value), `assert`s its truthiness, and constructs the client.  The
model is pure: no network activity can occur anywhere in it. -/
def get_slack_time (env : String → Option String)
    (env_var : String := "SLACK_API_TOKEN") (session : Option Transport := none)
    (proxies : Option Proxies := none) (timeout : Int := 10) :
    Except AssertionError SlackTimeClient :=
  let token := env env_var
  if pyTruthyOptStr token then
    .ok { token := token.getD "", session := session, proxies := proxies,
          timeout := timeout }
  else
    .error { message := "You must save a " ++ squote ++ env_var ++ squote ++
             " environment variable" }

/-- `if value is not None: payload[key] = value` — appends the key to the
ordered payload mapping exactly when the optional value was supplied. -/
def addOptional (payload : Payload) (key : String) : Option Value → Payload
  | some v => payload ++ [(key, v)]
  | none => payload

/-- The payload dict built by `Auth.revoke`
(`slack_time/methods/auth.py` lines 33-36). -/
def Auth.revoke_payload (token : String) (test : Option Bool) : Payload :=
  addOptional [("token", .str token)] "test" (test.map .bool)

/-- `Auth.revoke` (`slack_time/methods/auth.py` lines 8-38): builds the
payload and calls `self._get("auth.revoke", payload=payload, **kwargs)`. -/
def Auth.revoke (api : SlackAPI) (tr : Transport) (test : Option Bool)
    (kw : Kwargs) : Except PyError Resp :=
  api._get tr "auth.revoke"
    { kw with payload := some (Auth.revoke_payload api.token test) }

/-- The payload dict built by `ScheduledMessages.list`
(`slack_time/methods/chat.py` lines 65-82). -/
def ScheduledMessages.list_payload (token : String)
    (channel cursor : Option String) (latest lim oldest : Option Int) :
    Payload :=
  let payload : Payload := [("token", .str token)]
  let payload := addOptional payload "channel" (channel.map .str)
  let payload := addOptional payload "cursor" (cursor.map .str)
  let payload := addOptional payload "latest" (latest.map .int)
  let payload := addOptional payload "limit" (lim.map .int)
  addOptional payload "oldest" (oldest.map .int)

/-- `ScheduledMessages.list` (`slack_time/methods/chat.py` lines 9-82):
builds the payload and calls
`self._post("chat.scheduledMessages.list", payload=payload, **kwargs)`. -/
def ScheduledMessages.list (api : SlackAPI) (tr : Transport)
    (channel cursor : Option String) (latest lim oldest : Option Int)
    (kw : Kwargs) : Except PyError Resp :=
  api._post tr "chat.scheduledMessages.list"
    { kw with payload := some (ScheduledMessages.list_payload api.token
        channel cursor latest lim oldest) }

/-- Whether a payload mapping contains a key. -/
def payloadHasKey (payload : Payload) (key : String) : Bool :=
  payload.any (fun kv => kv.1 == key)

/-- `sub` occurs verbatim as a substring of `s`. -/
def containsSub (s sub : String) : Prop :=
  ∃ a b : String, s = a ++ (sub ++ b)

/-- The formatted failure message contains the request URL and the error
code verbatim. -/
theorem errorMessage_contains (url e doc : String) :
    containsSub (errorMessage url e doc) url ∧
    containsSub (errorMessage url e doc) e := by
  constructor
  · exact ⟨"You tried to perform a request to ", _, rfl⟩
  · refine ⟨"You tried to perform a request to " ++
      (url ++ (". \nThe server returned a " ++ squote)),
      (squote ++ " response. Find out more at: ") ++ (doc ++ "#errors"), ?_⟩
    simp [errorMessage, String.append_assoc]

/-- C7: `MakeUrl(p)` is pure concatenation of the fixed base URL, `/` and
the path; being a pure function, two calls with the same path return an
identical string. -/
theorem make_url_pure_concat (api : SlackAPI) (p : String) :
    api.make_url p = SLACK_API_BASE_URL ++ "/" ++ p ∧
    api.make_url p = api.make_url p :=
  ⟨rfl, rfl⟩

/-- C9: `comma_separated_string` joins an iterable of strings with commas,
returns a string unchanged, and is idempotent; in particular
`["a","b","c"]` yields `"a,b,c"`. -/
theorem comma_separated_string_join_idempotent :
    (∀ xs : List String,
      comma_separated_string (.iter xs) = String.intercalate "," xs) ∧
    (∀ s : String, comma_separated_string (.str s) = s) ∧
    (∀ x : StrOrIter,
      comma_separated_string (.str (comma_separated_string x)) =
        comma_separated_string x) ∧
    comma_separated_string (.iter ["a", "b", "c"]) = "a,b,c" :=
  ⟨fun _ => rfl, fun _ => rfl, fun _ => rfl, by decide⟩

/-- C4: the payloads built by the endpoint grouping methods `Auth.revoke`
and `ScheduledMessages.list` always contain the token, and contain the key of an
optional parameter exactly when the caller supplied a value other
than the unset default `None`. -/
theorem endpoint_payload_keys (token : String) (test : Option Bool)
    (channel cursor : Option String) (latest lim oldest : Option Int) :
    payloadHasKey (Auth.revoke_payload token test) "token" = true ∧
    payloadHasKey (Auth.revoke_payload token test) "test" = test.isSome ∧
    payloadHasKey
      (ScheduledMessages.list_payload token channel cursor latest lim oldest)
      "token" = true ∧
    payloadHasKey
      (ScheduledMessages.list_payload token channel cursor latest lim oldest)
      "channel" = channel.isSome ∧
    payloadHasKey
      (ScheduledMessages.list_payload token channel cursor latest lim oldest)
      "cursor" = cursor.isSome ∧
    payloadHasKey
      (ScheduledMessages.list_payload token channel cursor latest lim oldest)
      "latest" = latest.isSome ∧
    payloadHasKey
      (ScheduledMessages.list_payload token channel cursor latest lim oldest)
      "limit" = lim.isSome ∧
    payloadHasKey
      (ScheduledMessages.list_payload token channel cursor latest lim oldest)
      "oldest" = oldest.isSome := by
  cases test <;> cases channel <;> cases cursor <;> cases latest <;>
    cases lim <;> cases oldest <;>
      simp [Auth.revoke_payload, ScheduledMessages.list_payload,
        payloadHasKey, addOptional]

/-- C5: `_get` builds the request URL from the path via `make_url` and
places the payload in the query-string (`params`) position with verb
`"get"`; `_post` builds the URL the same way and places the payload in the
body (`data`) position with verb `"post"`. -/
theorem verbs_build_url_and_place_payload (api : SlackAPI) (tr : Transport)
    (path : String) (payload : Option Payload) (kw : Kwargs)
    (hparams : kw.params = none) (hdata : kw.data = none) :
    (api.get_undecorated tr path { kw with payload := payload }).request.url =
      api.make_url path ∧
    (api.get_undecorated tr path
      { kw with payload := payload }).request.method = "get" ∧
    (api.get_undecorated tr path
      { kw with payload := payload }).request.params = payload ∧
    (api.post_undecorated tr path { kw with payload := payload }).request.url =
      api.make_url path ∧
    (api.post_undecorated tr path
      { kw with payload := payload }).request.method = "post" ∧
    (api.post_undecorated tr path
      { kw with payload := payload }).request.data = payload := by
  obtain ⟨kt, kp, kpar, kd, kpl⟩ := kw
  cases hparams
  cases hdata
  exact ⟨rfl, rfl, rfl, rfl, rfl, rfl⟩

/-- C5 witness: a concrete instantiation of
`verbs_build_url_and_place_payload`. -/
theorem verbs_build_url_and_place_payload_witness :
    (({} : Kwargs).params = none) ∧ (({} : Kwargs).data = none) ∧
    ((SlackAPI.get_undecorated ⟨"T", none, none, 10⟩
        (fun _ => ⟨true, none⟩) "auth.test"
        { ({} : Kwargs) with
          payload := some [("token", .str "T")] }).request.params =
      some [("token", .str "T")]) :=
  ⟨rfl, rfl,
    (verbs_build_url_and_place_payload ⟨"T", none, none, 10⟩
      (fun _ => ⟨true, none⟩) "auth.test" (some [("token", .str "T")])
      {} rfl rfl).2.2.1⟩

/-- C6: `_request` uses a caller-supplied `timeout`/`proxies` option when
the key is present in the per-call options, and falls back to the
configured value of the instance otherwise. -/
theorem dispatch_option_defaults (api : SlackAPI) (tr : Transport)
    (method url : String) (kw : Kwargs) :
    (∀ t, kw.timeout = some t →
      (api._request tr method url kw).request.timeout = t) ∧
    (kw.timeout = none →
      (api._request tr method url kw).request.timeout = api.timeout) ∧
    (∀ p, kw.proxies = some p →
      (api._request tr method url kw).request.proxies = some p) ∧
    (kw.proxies = none →
      (api._request tr method url kw).request.proxies = api.proxies) := by
  refine ⟨fun t ht => ?_, fun ht => ?_, fun p hp => ?_, fun hp => ?_⟩
  · simp [SlackAPI._request, ht]
  · simp [SlackAPI._request, ht]
  · simp [SlackAPI._request, hp]
  · simp [SlackAPI._request, hp]

/-- C6 witness: a concrete instantiation of `dispatch_option_defaults`. -/
theorem dispatch_option_defaults_witness :
    ((⟨some 5, none, none, none, none⟩ : Kwargs).timeout = some 5) ∧
    ((SlackAPI._request ⟨"T", none, none, 10⟩ (fun _ => ⟨true, none⟩)
        "get" "https://slack.com/api/auth.test"
        ⟨some 5, none, none, none, none⟩).request.timeout = 5) ∧
    ((SlackAPI._request ⟨"T", none, none, 10⟩ (fun _ => ⟨true, none⟩)
        "get" "https://slack.com/api/auth.test"
        ⟨none, none, none, none, none⟩).request.timeout = 10) :=
  ⟨rfl,
    (dispatch_option_defaults ⟨"T", none, none, 10⟩ (fun _ => ⟨true, none⟩)
      "get" "https://slack.com/api/auth.test"
      ⟨some 5, none, none, none, none⟩).1 5 rfl,
    (dispatch_option_defaults ⟨"T", none, none, 10⟩ (fun _ => ⟨true, none⟩)
      "get" "https://slack.com/api/auth.test"
      ⟨none, none, none, none, none⟩).2.1 rfl⟩

/-- C2: when the success flag of the decoded response body is true, `_get` and
`_post` raise nothing and return the decorated response envelope
unchanged. -/
theorem success_returns_envelope (api : SlackAPI) (tr : Transport)
    (path : String) (kw : Kwargs)
    (hg : (api.get_undecorated tr path kw).successful = true)
    (hp : (api.post_undecorated tr path kw).successful = true) :
    api._get tr path kw = .ok (api.get_undecorated tr path kw) ∧
    api._post tr path kw = .ok (api.post_undecorated tr path kw) := by
  constructor
  · simp [SlackAPI._get, raise_exception_on_error_from_server, hg]
  · simp [SlackAPI._post, raise_exception_on_error_from_server, hp]

/-- C2 witness: a concrete instantiation of `success_returns_envelope`. -/
theorem success_returns_envelope_witness :
    ((SlackAPI.get_undecorated ⟨"T", none, none, 10⟩ (fun _ => ⟨true, none⟩)
        "auth.test" {}).successful = true) ∧
    ((SlackAPI.post_undecorated ⟨"T", none, none, 10⟩ (fun _ => ⟨true, none⟩)
        "auth.test" {}).successful = true) ∧
    (SlackAPI._get ⟨"T", none, none, 10⟩ (fun _ => ⟨true, none⟩)
        "auth.test" {} =
      .ok (SlackAPI.get_undecorated ⟨"T", none, none, 10⟩
        (fun _ => ⟨true, none⟩) "auth.test" {})) :=
  ⟨rfl, rfl,
    (success_returns_envelope ⟨"T", none, none, 10⟩ (fun _ => ⟨true, none⟩)
      "auth.test" {} rfl rfl).1⟩

/-- C1: when the success flag of the decoded response body is false and the
error code is present, `_get` and `_post` raise an exception whose type
name equals the error code, whose type is a subtype of the base
`SlackError` kind, and whose message contains the full request URL and the
error code verbatim. -/
theorem failure_raises_named_slack_error (api : SlackAPI) (tr : Transport)
    (path : String) (kw : Kwargs) (eg ep : String)
    (hgs : (api.get_undecorated tr path kw).successful = false)
    (hge : (api.get_undecorated tr path kw).error = some eg)
    (hps : (api.post_undecorated tr path kw).successful = false)
    (hpe : (api.post_undecorated tr path kw).error = some ep) :
    ∃ mg mp : String,
      api._get tr path kw = .error (.slackError eg mg) ∧
      (PyError.slackError eg mg).isSlackErrorSubtype = true ∧
      containsSub mg (api.make_url path) ∧ containsSub mg eg ∧
      api._post tr path kw = .error (.slackError ep mp) ∧
      (PyError.slackError ep mp).isSlackErrorSubtype = true ∧
      containsSub mp (api.make_url path) ∧ containsSub mp ep := by
  refine ⟨errorMessage (SLACK_API_BASE_URL ++ "/" ++ path) eg
      (SLACK_DOC_BASE_URL ++ rsplitLast (SLACK_API_BASE_URL ++ "/" ++ path)),
    errorMessage (SLACK_API_BASE_URL ++ "/" ++ path) ep
      (SLACK_DOC_BASE_URL ++ rsplitLast (SLACK_API_BASE_URL ++ "/" ++ path)),
    ?_, rfl, ?_, ?_, ?_, rfl, ?_, ?_⟩
  · simp [SlackAPI._get, raise_exception_on_error_from_server, hgs, hge,
      dynamicExceptionClass]
  · exact (errorMessage_contains _ _ _).1
  · exact (errorMessage_contains _ _ _).2
  · simp [SlackAPI._post, raise_exception_on_error_from_server, hps, hpe,
      dynamicExceptionClass]
  · exact (errorMessage_contains _ _ _).1
  · exact (errorMessage_contains _ _ _).2

/-- C1 witness: a concrete instantiation of
`failure_raises_named_slack_error` with a `channel_not_found` failure. -/
theorem failure_raises_named_slack_error_witness :
    ((SlackAPI.get_undecorated ⟨"T", none, none, 10⟩
        (fun _ => ⟨false, some "channel_not_found"⟩)
        "chat.postMessage" {}).successful = false) ∧
    ((SlackAPI.get_undecorated ⟨"T", none, none, 10⟩
        (fun _ => ⟨false, some "channel_not_found"⟩)
        "chat.postMessage" {}).error = some "channel_not_found") ∧
    (∃ mg mp : String,
      SlackAPI._get ⟨"T", none, none, 10⟩
          (fun _ => ⟨false, some "channel_not_found"⟩) "chat.postMessage" {} =
        .error (.slackError "channel_not_found" mg) ∧
      (PyError.slackError "channel_not_found" mg).isSlackErrorSubtype = true ∧
      containsSub mg
        (SlackAPI.make_url ⟨"T", none, none, 10⟩ "chat.postMessage") ∧
      containsSub mg "channel_not_found" ∧
      SlackAPI._post ⟨"T", none, none, 10⟩
          (fun _ => ⟨false, some "channel_not_found"⟩) "chat.postMessage" {} =
        .error (.slackError "channel_not_found" mp) ∧
      (PyError.slackError "channel_not_found" mp).isSlackErrorSubtype = true ∧
      containsSub mp
        (SlackAPI.make_url ⟨"T", none, none, 10⟩ "chat.postMessage") ∧
      containsSub mp "channel_not_found") :=
  ⟨rfl, rfl,
    failure_raises_named_slack_error ⟨"T", none, none, 10⟩
      (fun _ => ⟨false, some "channel_not_found"⟩) "chat.postMessage" {}
      "channel_not_found" "channel_not_found" rfl rfl rfl rfl⟩

/-- C3: when the success flag is false but the error code is absent, the
failure check raises the construction `TypeError` coming from building the
dynamic exception type, which is not a subtype of the base `SlackError`
kind. -/
theorem missing_error_code_raises_type_error (api : SlackAPI)
    (tr : Transport) (path : String) (kw : Kwargs)
    (hgs : (api.get_undecorated tr path kw).successful = false)
    (hge : (api.get_undecorated tr path kw).error = none)
    (hps : (api.post_undecorated tr path kw).successful = false)
    (hpe : (api.post_undecorated tr path kw).error = none) :
    ∃ mg mp : String,
      api._get tr path kw = .error (.typeError mg) ∧
      (PyError.typeError mg).isSlackErrorSubtype = false ∧
      api._post tr path kw = .error (.typeError mp) ∧
      (PyError.typeError mp).isSlackErrorSubtype = false := by
  refine ⟨"type() argument 1 must be str, not NoneType",
    "type() argument 1 must be str, not NoneType", ?_, rfl, ?_, rfl⟩
  · simp [SlackAPI._get, raise_exception_on_error_from_server, hgs, hge,
      dynamicExceptionClass]
  · simp [SlackAPI._post, raise_exception_on_error_from_server, hps, hpe,
      dynamicExceptionClass]

/-- C3 witness: a concrete instantiation of
`missing_error_code_raises_type_error` with an `ok: false` body carrying no
error field. -/
theorem missing_error_code_raises_type_error_witness :
    ((SlackAPI.get_undecorated ⟨"T", none, none, 10⟩ (fun _ => ⟨false, none⟩)
        "auth.test" {}).successful = false) ∧
    ((SlackAPI.get_undecorated ⟨"T", none, none, 10⟩ (fun _ => ⟨false, none⟩)
        "auth.test" {}).error = none) ∧
    (∃ mg mp : String,
      SlackAPI._get ⟨"T", none, none, 10⟩ (fun _ => ⟨false, none⟩)
          "auth.test" {} = .error (.typeError mg) ∧
      (PyError.typeError mg).isSlackErrorSubtype = false ∧
      SlackAPI._post ⟨"T", none, none, 10⟩ (fun _ => ⟨false, none⟩)
          "auth.test" {} = .error (.typeError mp) ∧
      (PyError.typeError mp).isSlackErrorSubtype = false) :=
  ⟨rfl, rfl,
    missing_error_code_raises_type_error ⟨"T", none, none, 10⟩
      (fun _ => ⟨false, none⟩) "auth.test" {} rfl rfl rfl rfl⟩

/-- C8: `get_slack_time` fails with an `assert` error when the named
environment variable is unset or empty — before a client is constructed,
and nothing in the model performs network activity — and returns a client
constructed with the token when the variable holds a non-empty value. -/
theorem get_slack_time_token_check (env : String → Option String)
    (env_var : String) (session : Option Transport) (proxies : Option Proxies)
    (timeout : Int) :
    ((env env_var = none ∨ env env_var = some "") →
      ∃ a : AssertionError,
        get_slack_time env env_var session proxies timeout = .error a) ∧
    (∀ t, env env_var = some t → t ≠ "" →
      get_slack_time env env_var session proxies timeout =
        .ok { token := t, session := session, proxies := proxies,
              timeout := timeout }) := by
  constructor
  · rintro (h | h) <;>
      exact ⟨⟨"You must save a " ++ squote ++ env_var ++ squote ++
        " environment variable"⟩, by unfold get_slack_time; rw [h]; rfl⟩
  · intro t ht hne
    simp [get_slack_time, ht, pyTruthyOptStr, String.isEmpty_iff, hne]

/-- C8 witness: a concrete instantiation of `get_slack_time_token_check`
for both a set and an unset environment variable. -/
theorem get_slack_time_token_check_witness :
    (get_slack_time (fun _ => some "xoxo-123") "SLACK_API_TOKEN" none none 10 =
      .ok { token := "xoxo-123", session := none, proxies := none,
            timeout := 10 }) ∧
    (∃ a : AssertionError,
      get_slack_time (fun _ => none) "SLACK_API_TOKEN" none none 10 =
        .error a) :=
  ⟨(get_slack_time_token_check (fun _ => some "xoxo-123") "SLACK_API_TOKEN"
      none none 10).2 "xoxo-123" rfl (by decide),
    (get_slack_time_token_check (fun _ => none) "SLACK_API_TOKEN"
      none none 10).1 (Or.inl rfl)⟩

/-- C10: when the per-call options already contain `params` (for `_get`) or
`data` (for `_post`), the caller-supplied option value is what is sent, and
the `payload` argument is discarded: the dispatched request is identical
whatever payload is passed. -/
theorem explicit_options_discard_payload (api : SlackAPI) (tr : Transport)
    (path : String) (q d : Payload) (kw : Kwargs) (p1 p2 : Option Payload)
    (hq : kw.params = some q) (hd : kw.data = some d) :
    (api.get_undecorated tr path
      { kw with payload := p1 }).request.params = some q ∧
    api.get_undecorated tr path { kw with payload := p1 } =
      api.get_undecorated tr path { kw with payload := p2 } ∧
    (api.post_undecorated tr path
      { kw with payload := p1 }).request.data = some d ∧
    api.post_undecorated tr path { kw with payload := p1 } =
      api.post_undecorated tr path { kw with payload := p2 } := by
  obtain ⟨kt, kp, kpar, kd, kpl⟩ := kw
  cases hq
  cases hd
  exact ⟨rfl, rfl, rfl, rfl⟩

/-- C10 witness: a concrete instantiation of
`explicit_options_discard_payload`. -/
theorem explicit_options_discard_payload_witness :
    ((⟨none, none, some [("a", Value.str "1")], some [("c", Value.str "3")],
        none⟩ : Kwargs).params = some [("a", Value.str "1")]) ∧
    ((SlackAPI.get_undecorated ⟨"T", none, none, 10⟩ (fun _ => ⟨true, none⟩)
        "auth.test"
        { (⟨none, none, some [("a", Value.str "1")],
            some [("c", Value.str "3")], none⟩ : Kwargs) with
          payload := some [("b", Value.str "2")] }).request.params =
      some [("a", Value.str "1")]) :=
  ⟨rfl,
    (explicit_options_discard_payload ⟨"T", none, none, 10⟩
      (fun _ => ⟨true, none⟩) "auth.test" [("a", Value.str "1")]
      [("c", Value.str "3")]
      ⟨none, none, some [("a", Value.str "1")], some [("c", Value.str "3")],
        none⟩
      (some [("b", Value.str "2")]) none rfl rfl).1⟩

end SlackTime
